import Mathlib

/-!
Shallow embedding of the order/catalog service of this repository
(`src/services/order_service.py`, `src/services/product_service.py`,
`src/utils/helpers.py`, `src/utils/pagination.py`, `src/schemas/pagination.py`,
`src/schemas/common_v2.py`, `src/models/order_v2.py`), together with theorems
settling the behavioral claims about it.

Modelling conventions:
* Monetary values (Python `float`) are modelled as `Rat`; Python's
  `round(x, 2)` (round-half-to-even at two decimals) is `round2`.
* A Mongo document field that may be absent (or JSON `null`) is an `Option`
  field; `none` models "key absent or null".
* A Mongo `ObjectId` is modelled by its canonical string form: 24 lowercase
  hex characters.  `bson.ObjectId(s)` accepts any 24-character hex string
  (either letter case) and `str(ObjectId(s))` is the lowercased form, which
  `parseObjectId` mirrors.
* Wall-clock timestamps (`created_at` / `updated_at`) carry no behavioral
  content for the claims below and are omitted from the document records.
-/

/-- Python's `round(q, 2)`: round to nearest hundredth, ties to even. -/
def roundHalfEven (q : Rat) : Int :=
  let n : Int := ⌊q⌋
  let frac : Rat := q - (n : Rat)
  if frac < 1/2 then n
  else if 1/2 < frac then n + 1
  else if n % 2 = 0 then n else n + 1

/-- `round(q, 2)` from Python, as a rational result. -/
def round2 (q : Rat) : Rat := (roundHalfEven (q * 100) : Rat) / 100

/-- Hex-digit test used by `bson.ObjectId`'s string validation. -/
def isHexDigitChar (c : Char) : Bool :=
  c.isDigit || (Char.ofNat 97 ≤ c && c ≤ Char.ofNat 102) ||
    (Char.ofNat 65 ≤ c && c ≤ Char.ofNat 70)

/-- A string is accepted by `bson.ObjectId(...)` iff it has 24 hex characters
(either case). -/
def isValidObjectIdStr (s : String) : Bool :=
  s.length == 24 && s.toList.all isHexDigitChar

/-- Python's `str.lower()` restricted to ASCII (hex digits only here). -/
def strToLower (s : String) : String := String.mk (s.toList.map Char.toLower)

/-- `ObjectId(s)` for a string input: on success the id, identified with its
canonical (lowercase) string form, as produced by `str(ObjectId(s))`. -/
def parseObjectId (s : String) : Option String :=
  if isValidObjectIdStr s then some (strToLower s) else none

/-- `str(object_id)` on an already-canonical id. -/
def oidToStr (o : String) : String := o

/-- A stored id is canonical when it is a valid ObjectId string already in
lowercase form; `str(ObjectId(..))` always produces such a string, so every
`_id` in the database has this shape. -/
def isCanonicalOid (s : String) : Bool :=
  isValidObjectIdStr s && strToLower s == s

/-- `fastapi.HTTPException(status_code, detail)`. -/
structure HTTPError where
  status_code : Nat
  detail : String
deriving DecidableEq, Repr

/-- One entry of a product's `sizes` array: `{"size": ..., "stock": ...}`. -/
structure SizeEntry where
  size : String
  stock : Int
deriving DecidableEq, Repr

/-- A product document in the `products` collection.  `oid` is the canonical
string form of `_id`; optional attributes are `Option`; a missing `tags`
array behaves like `[]` for the `$in` filter and is modelled as `[]`. -/
structure ProductDoc where
  oid : String
  name : Option String := none
  description : Option String := none
  price : Option Rat := none
  category : Option String := none
  brand : Option String := none
  tags : List String := []
  sizes : List SizeEntry := []
deriving DecidableEq, Repr

/-- One element of the `items` list of an incoming create-order payload; each
key may be absent (`none`). -/
structure OrderItemData where
  product_id : Option String
  size : Option String
  quantity : Option Int
deriving DecidableEq, Repr

/-- The `items` field of an incoming payload: absent, present but not a list
(e.g. a string), or an actual list. -/
inductive ItemsField where
  | absent
  | notList
  | list (items : List OrderItemData)
deriving DecidableEq, Repr

/-- An incoming create-order payload (the dict handed to
`OrderService.create_order`).  `order_status` / `payment_status` model a
caller trying to smuggle in an initial status. -/
structure OrderData where
  user_id : Option String := none
  items : ItemsField := .absent
  shipping_cost : Option Rat := none
  tax : Option Rat := none
  order_status : Option String := none
  payment_status : Option String := none
deriving DecidableEq, Repr

/-- An item that passed `ValidationHelper.validate_order_data`: all three
keys are present. -/
structure ValidOrderItem where
  product_id : String
  size : String
  quantity : Int
deriving DecidableEq, Repr

/-- A payload that passed `ValidationHelper.validate_order_data`. -/
structure ValidOrderData where
  user_id : String
  items : List ValidOrderItem
  shipping_cost : Option Rat
  tax : Option Rat
  order_status : Option String
  payment_status : Option String
deriving DecidableEq, Repr

/-- Whether an item dict carries the keys `product_id`, `quantity`, `size`
(the check of `utils/helpers.py` line 53). -/
def item_has_required_keys (it : OrderItemData) : Bool :=
  it.product_id.isSome && it.quantity.isSome && it.size.isSome

/-- View of an item after validation (key lookups can no longer fail; the
defaults are never used because `item_has_required_keys` holds). -/
def refineItem (it : OrderItemData) : ValidOrderItem :=
  { product_id := it.product_id.getD ""
    size := it.size.getD ""
    quantity := it.quantity.getD 0 }

/-- `ValidationHelper.validate_order_data` (utils/helpers.py lines 44-55):
rejects a missing/falsy `user_id`, a missing/non-list/empty `items`, and any
item lacking one of `product_id`, `quantity`, `size`.  Note it does NOT
inspect the value of `quantity`. -/
def validate_order_data (d : OrderData) : Except HTTPError ValidOrderData :=
  match d.user_id with
  | none => .error ⟨400, "Missing user_id in order"⟩
  | some u =>
    if u = "" then .error ⟨400, "Missing user_id in order"⟩
    else match d.items with
    | .absent => .error ⟨400, "Empty or invalid items in order"⟩
    | .notList => .error ⟨400, "Empty or invalid items in order"⟩
    | .list items =>
      if items.isEmpty then .error ⟨400, "Empty or invalid items in order"⟩
      else if items.all item_has_required_keys then
        .ok { user_id := u
              items := items.map refineItem
              shipping_cost := d.shipping_cost
              tax := d.tax
              order_status := d.order_status
              payment_status := d.payment_status }
      else .error ⟨400, "Each item must have product_id, quantity, and size"⟩

/-- `ProductService.check_products_exist` (product_service.py lines 98-113):
parse each requested id (parse failures are skipped), fetch the records whose
`_id` is among the parsed ids, and report as missing every requested id that
is not literally the canonical string of a found record's id.  The
`to_list(length=len(valid_object_ids))` cap never truncates because `_id`
values are unique. -/
def check_products_exist (catalog : List ProductDoc) (product_ids : List String) :
    List ProductDoc × List String :=
  let valid_object_ids := product_ids.filterMap parseObjectId
  let found_products := catalog.filter (fun p => valid_object_ids.contains p.oid)
  let found_ids := found_products.map (fun p => oidToStr p.oid)
  let missing_ids := product_ids.filter (fun pid => !(found_ids.contains pid))
  (found_products, missing_ids)

/-- `", ".join(l)`. -/
def joinComma (l : List String) : String := String.intercalate ", " l

/-- An order item as persisted by `create_order` (and, for legacy documents,
as read by `order_helper`): `product_name` / `price` / `subtotal` may be
absent; `name` / `unit_price` are legacy keys consulted only by
`order_helper`. -/
structure StoredOrderItem where
  product_id : String
  size : String
  quantity : Int
  product_name : Option String := none
  price : Option Rat := none
  subtotal : Option Rat := none
  name : Option String := none
  unit_price : Option Rat := none
deriving DecidableEq, Repr

/-- An order document in the `orders` collection.  `status` and
`total_amount` are the legacy field names that `order_helper` reads and
`list_orders` / `update_order_status` query; `order_status` and `total` are
the names `create_order` writes. -/
structure OrderDoc where
  oid : Option String := none
  user_id : Option String := none
  items : List StoredOrderItem := []
  order_status : Option String := none
  status : Option String := none
  payment_status : Option String := none
  subtotal : Option Rat := none
  shipping_cost : Option Rat := none
  tax : Option Rat := none
  total : Option Rat := none
  total_amount : Option Rat := none
  tracking_number : Option String := none
  notes : Option String := none
deriving DecidableEq, Repr

/-- The enrichment step of `create_order` (order_service.py lines 39-45):
if the item's product is in the map, snapshot name and price and compute the
item subtotal; otherwise (unreachable once the missing-id check passed) the
item is stored unenriched. -/
def enrich_item (product_map : String → Option ProductDoc)
    (it : ValidOrderItem) : StoredOrderItem :=
  match product_map it.product_id with
  | some product =>
    let price : Rat := product.price.getD 0
    { product_id := it.product_id
      size := it.size
      quantity := it.quantity
      product_name := some (product.name.getD "Unknown Product")
      price := some price
      subtotal := some (round2 (price * (it.quantity : Rat))) }
  | none =>
    { product_id := it.product_id
      size := it.size
      quantity := it.quantity }

/-- The body of `OrderService.create_order` after validation succeeded
(order_service.py lines 25-62): batch existence check, wholesale 404 on any
missing id, price/name snapshotting, totals, forced pending statuses.
The dict comprehension `{str(p["_id"]): p for p in existing_products}` is
modelled by `find?` on the found list (equal because `_id` values are
unique). -/
def create_order_validated (catalog : List ProductDoc) (v : ValidOrderData) :
    Except HTTPError OrderDoc :=
  let product_ids := v.items.map (fun it => it.product_id)
  let res := check_products_exist catalog product_ids
  let missing_ids := res.2
  if missing_ids.isEmpty then
    let existing_products := res.1
    let product_map := fun pid => existing_products.find? (fun p => oidToStr p.oid == pid)
    let items := v.items.map (enrich_item product_map)
    let subtotal := items.foldl (fun acc it => acc + it.subtotal.getD 0) 0
    let shipping_cost := v.shipping_cost.getD 0
    let tax := v.tax.getD 0
    .ok { user_id := some v.user_id
          items := items
          order_status := some "pending"
          payment_status := some "pending"
          subtotal := some subtotal
          shipping_cost := some shipping_cost
          tax := some tax
          total := some (round2 (subtotal + shipping_cost + tax)) }
  else
    .error ⟨404, "Products not found: " ++ joinComma missing_ids⟩

/-- `OrderService.create_order` (order_service.py lines 22-62): structural
validation, then the pricing pipeline.  The result is the document handed to
`insert_one`. -/
def create_order (catalog : List ProductDoc) (order_data : OrderData) :
    Except HTTPError OrderDoc :=
  match validate_order_data order_data with
  | .error e => .error e
  | .ok v => create_order_validated catalog v

/-- Effect of one `create_order` call on the `orders` collection: the
document is appended on success; on any raised error nothing was inserted
(the `insert_one` call is only reached after every check passed). -/
def create_order_store (catalog : List ProductDoc) (store : List OrderDoc)
    (order_data : OrderData) : List OrderDoc :=
  match create_order catalog order_data with
  | .ok doc => store ++ [doc]
  | .error _ => store

/-- `OrderFilter` (schemas/order.py lines 91-100).  An enum-typed filter is
modelled by its string value.  The `date_from` / `date_to` fields range over
wall-clock values and are outside this embedding; they are independent of
every claim below. -/
structure OrderFilter where
  user_id : Option String := none
  order_status : Option String := none
  payment_status : Option String := none
  min_total : Option Rat := none
  max_total : Option Rat := none
deriving DecidableEq, Repr

/-- Denotation of the Mongo query built by `OrderService.list_orders`
(order_service.py lines 76-101) on one order document: `user_id` exact,
`order_status` matched against the document field named `status`,
`payment_status` against `payment_status`, and `min_total` / `max_total` as
`$gte` / `$lte` on the document field named `total_amount` (a range predicate
on an absent field matches nothing).  Truthiness of `if filters.x:` skips an
empty string. -/
def list_orders_matches (f : OrderFilter) (doc : OrderDoc) : Bool :=
  (match f.user_id with
   | some u => if u = "" then true else doc.user_id == some u
   | none => true) &&
  (match f.order_status with
   | some s => if s = "" then true else doc.status == some s
   | none => true) &&
  (match f.payment_status with
   | some s => if s = "" then true else doc.payment_status == some s
   | none => true) &&
  (match f.min_total with
   | some m => match doc.total_amount with
     | some t => decide (m ≤ t)
     | none => false
   | none => true) &&
  (match f.max_total with
   | some m => match doc.total_amount with
     | some t => decide (t ≤ m)
     | none => false
   | none => true)

/-- `convert_objectid` (utils/helpers.py lines 6-10). -/
def convert_objectid (s : String) : Except HTTPError String :=
  match parseObjectId s with
  | some o => .ok o
  | none => .error ⟨400, "Invalid ObjectId"⟩

/-- The `valid_statuses` list of `OrderService.update_order_status`. -/
def valid_statuses : List String :=
  ["pending", "processing", "shipped", "delivered", "cancelled"]

/-- The `try` body of `OrderService.update_order_status` (order_service.py
lines 135-147): id conversion, status whitelist, then `update_one` setting
the legacy `status` field on the matched document.  `update_one` touches at
most the single document whose `_id` matches (ids are unique);
`modified_count > 0` holds iff a document matched, since `updated_at` is
always rewritten. -/
def update_order_status_inner (store : List OrderDoc) (order_id : String)
    (status : String) : Except HTTPError (List OrderDoc × Bool) :=
  match convert_objectid order_id with
  | .error e => .error e
  | .ok object_id =>
    if valid_statuses.contains status then
      let newStore := store.map (fun doc =>
        if doc.oid == some object_id then { doc with status := some status } else doc)
      let modified := store.any (fun doc => doc.oid == some object_id)
      .ok (newStore, modified)
    else
      .error ⟨400, "Invalid status. Must be one of: " ++ joinComma valid_statuses⟩

/-- `OrderService.update_order_status` (order_service.py lines 134-150): the
surrounding `except Exception` clause catches every exception — including the
`HTTPException(400, ...)` the body itself raised — and re-raises
`HTTPException(500, "Internal server error")`. -/
def update_order_status (store : List OrderDoc) (order_id : String)
    (status : String) : Except HTTPError (List OrderDoc × Bool) :=
  match update_order_status_inner store order_id status with
  | .ok r => .ok r
  | .error _ => .error ⟨500, "Internal server error"⟩

/-- `PaginationMeta` as a plain record (all three implementations produce
these six fields). -/
structure PaginationMeta where
  page : Nat
  page_size : Nat
  total_items : Nat
  total_pages : Nat
  has_previous : Bool
  has_next : Bool
deriving DecidableEq, Repr

/-- `PaginationMeta.create` of schemas/pagination.py (lines 41-52): note the
`else 1` branch for `total_items == 0`.  `(n + ps - 1) // ps` is the
source's integer ceiling division, only evaluated when `total_items > 0`. -/
def paginationMeta_create (page page_size total_items : Nat) : PaginationMeta :=
  let total_pages := if 0 < total_items then (total_items + page_size - 1) / page_size else 1
  { page := page
    page_size := page_size
    total_items := total_items
    total_pages := total_pages
    has_previous := decide (1 < page)
    has_next := decide (page < total_pages) }

/-- `Paginator.get_pagination_metadata` of utils/pagination.py (lines 26-37),
including the clamping the `Paginator` constructor applies to `page` and
`page_size`.  `ceil(total_items / page_size)` equals the integer ceiling
division for these magnitudes, and the `else 0` branch fires on
`total_items == 0`. -/
def get_pagination_metadata (page page_size total_items : Nat) : PaginationMeta :=
  let p := max 1 page
  let ps := min (max 1 page_size) 100
  let total_pages := if 0 < total_items then (total_items + ps - 1) / ps else 0
  { page := p
    page_size := ps
    total_items := total_items
    total_pages := total_pages
    has_previous := decide (1 < p)
    has_next := decide (p < total_pages) }

/-- `PaginationMeta.create` of schemas/common_v2.py (lines 37-49): same
ceiling division, with `else 0` on `total_items == 0`. -/
def paginationMetaV2_create (page page_size total_items : Nat) : PaginationMeta :=
  let total_pages := if 0 < total_items then (total_items + page_size - 1) / page_size else 0
  { page := page
    page_size := page_size
    total_items := total_items
    total_pages := total_pages
    has_previous := decide (1 < page)
    has_next := decide (page < total_pages) }

/-- `ProductFilter` fields consulted by the query builder of
`ProductService.list_products` (sort fields are irrelevant to matching). -/
structure ProductFilter where
  category : Option String := none
  brand : Option String := none
  min_price : Option Rat := none
  max_price : Option Rat := none
  size : Option String := none
  in_stock : Option Bool := none
  search : Option String := none
deriving DecidableEq, Repr

/-- The two payloads the builder can store under the single `"$or"` key of
the query dict. -/
inductive OrCondition where
  | out_of_stock
  | search_terms (term : String)
deriving DecidableEq, Repr

/-- The query dict built by `ProductService.list_products` (product_service.py
lines 56-81), one field per distinct dict key: `category`, `brand`, `price`
(range), `sizes.size`, `sizes` (`$elemMatch` on stock), and the shared
`"$or"` slot. -/
structure ProductQuery where
  category : Option String := none
  brand : Option String := none
  min_price : Option Rat := none
  max_price : Option Rat := none
  sizes_size : Option String := none
  sizes_elem_in_stock : Bool := false
  or_cond : Option OrCondition := none
deriving DecidableEq, Repr

/-- The final contents of the `query_filter` dict built by
`ProductService.list_products` (product_service.py lines 56-81), field by
field.  Each source `if` writes one dict key: a truthy `category` / `brand`
/ `size` writes its key; `min_price` / `max_price` (checked with
`is not None`) write the `price` range; `in_stock=true` writes the `sizes`
`$elemMatch`; `in_stock=false` writes `"$or"`; a truthy `search` then writes
the SAME `"$or"` key, so its assignment (running last) overwrites the
out-of-stock payload when both were supplied. -/
def build_product_query (f : ProductFilter) : ProductQuery :=
  { category := match f.category with
      | some c => if c = "" then none else some c
      | none => none
    brand := match f.brand with
      | some b => if b = "" then none else some b
      | none => none
    min_price := f.min_price
    max_price := f.max_price
    sizes_size := match f.size with
      | some s => if s = "" then none else some s
      | none => none
    sizes_elem_in_stock := f.in_stock == some true
    or_cond := match f.search with
      | some s =>
        if s = "" then
          (if f.in_stock == some false then some .out_of_stock else none)
        else some (.search_terms s)
      | none => if f.in_stock == some false then some .out_of_stock else none }

/-- Whether `pat` occurs at the head of `l`. -/
def listStartsWith : List Char → List Char → Bool
  | _, [] => true
  | [], _ :: _ => false
  | a :: as, b :: bs => a == b && listStartsWith as bs

/-- Whether `pat` occurs contiguously anywhere in `l`. -/
def hasSubList : List Char → List Char → Bool
  | [], pat => pat.isEmpty
  | a :: as, pat => listStartsWith (a :: as) pat || hasSubList as pat

/-- Case-insensitive substring test: the meaning of
`{"$regex": term, "$options": "i"}` for a term without regex
metacharacters. -/
def strContainsCI (hay needle : String) : Bool :=
  hasSubList (strToLower hay).toList (strToLower needle).toList

/-- Denotation of the `"$or"` payload on one product document. -/
def or_condition_matches : OrCondition → ProductDoc → Bool
  | .out_of_stock, p =>
      p.sizes.isEmpty || !(p.sizes.any (fun e => 0 < e.stock))
  | .search_terms t, p =>
      (match p.name with | some n => strContainsCI n t | none => false) ||
      (match p.description with | some d => strContainsCI d t | none => false) ||
      p.tags.contains t

/-- Denotation of the built query dict on one product document: the
conjunction of its entries (a Mongo query dict is a conjunction over its
keys; a comparison against an absent field matches nothing). -/
def product_query_matches (q : ProductQuery) (p : ProductDoc) : Bool :=
  (match q.category with | some c => p.category == some c | none => true) &&
  (match q.brand with | some b => p.brand == some b | none => true) &&
  (match q.min_price with
   | some m => match p.price with | some pr => decide (m ≤ pr) | none => false
   | none => true) &&
  (match q.max_price with
   | some m => match p.price with | some pr => decide (pr ≤ m) | none => false
   | none => true) &&
  (match q.sizes_size with
   | some s => p.sizes.any (fun e => e.size == s)
   | none => true) &&
  (!q.sizes_elem_in_stock || p.sizes.any (fun e => 0 < e.stock)) &&
  (match q.or_cond with | some c => or_condition_matches c p | none => true)

/-- Truthiness of an optional search term (`if filter_params.search:`). -/
def search_supplied (f : ProductFilter) : Bool :=
  match f.search with
  | some t => !(t == "")
  | none => false

/-- The filter semantics the specification advertises for product listing
(spec §4.1): every supplied filter is one conjunct, the search OR-group
included.  This is the spec-side definition used to compare against the
query the code actually builds. -/
def spec_product_filter_matches (f : ProductFilter) (p : ProductDoc) : Bool :=
  (match f.category with
   | some c => if c = "" then true else p.category == some c
   | none => true) &&
  (match f.brand with
   | some b => if b = "" then true else p.brand == some b
   | none => true) &&
  (match f.min_price with
   | some m => match p.price with | some pr => decide (m ≤ pr) | none => false
   | none => true) &&
  (match f.max_price with
   | some m => match p.price with | some pr => decide (pr ≤ m) | none => false
   | none => true) &&
  (match f.size with
   | some s => if s = "" then true else p.sizes.any (fun e => e.size == s)
   | none => true) &&
  (match f.in_stock with
   | some true => p.sizes.any (fun e => 0 < e.stock)
   | some false => !(p.sizes.any (fun e => 0 < e.stock))
   | none => true) &&
  (match f.search with
   | some t =>
     if t = "" then true else
       ((match p.name with | some n => strContainsCI n t | none => false) ||
        (match p.description with | some d => strContainsCI d t | none => false) ||
        p.tags.contains t)
   | none => true)

/-- The filter semantics the code actually implements: as the spec says,
except that `in_stock=false` and `search` share the query dict's single
`"$or"` key, so a supplied (non-empty) search term drops the
`in_stock=false` condition. -/
def spec_product_filter_matches_amended (f : ProductFilter) (p : ProductDoc) : Bool :=
  (match f.category with
   | some c => if c = "" then true else p.category == some c
   | none => true) &&
  (match f.brand with
   | some b => if b = "" then true else p.brand == some b
   | none => true) &&
  (match f.min_price with
   | some m => match p.price with | some pr => decide (m ≤ pr) | none => false
   | none => true) &&
  (match f.max_price with
   | some m => match p.price with | some pr => decide (pr ≤ m) | none => false
   | none => true) &&
  (match f.size with
   | some s => if s = "" then true else p.sizes.any (fun e => e.size == s)
   | none => true) &&
  (match f.in_stock with
   | some true => p.sizes.any (fun e => 0 < e.stock)
   | some false => search_supplied f || !(p.sizes.any (fun e => 0 < e.stock))
   | none => true) &&
  (match f.search with
   | some t =>
     if t = "" then true else
       ((match p.name with | some n => strContainsCI n t | none => false) ||
        (match p.description with | some d => strContainsCI d t | none => false) ||
        p.tags.contains t)
   | none => true)

/-- The record returned by the order read path (`order_helper`). -/
structure OrderRecord where
  id : String
  user_id : Option String
  items : List StoredOrderItem
  order_status : String
  payment_status : String
  subtotal : Rat
  shipping_cost : Rat
  tax : Rat
  total : Rat
  tracking_number : Option String
  notes : Option String
deriving DecidableEq, Repr

/-- The per-item defaulting loop of `order_helper` (models/order_v2.py lines
17-31).  Documents written by this repository always carry `quantity`, so the
`get("quantity", 1)` default is never consulted. -/
def process_helper_item (it : StoredOrderItem) : StoredOrderItem :=
  let it := match it.product_name with
    | some _ => it
    | none => { it with product_name := some (it.name.getD "Unknown Product") }
  let it := match it.price with
    | some _ => it
    | none => { it with price := some (it.unit_price.getD 0) }
  let it := match it.subtotal with
    | some _ => it
    | none => { it with subtotal := some (round2 ((it.quantity : Rat) * it.price.getD 0)) }
  it

/-- `order_helper` (models/order_v2.py lines 12-65): the record shape every
order read path returns, with backward-compatible defaulting for
`order_status` (falling back to the legacy `status` field, then `"pending"`),
`payment_status` (default `"pending"`) and `total` (falling back to the
legacy `total_amount` field, then `0.0`). -/
def order_helper (doc : OrderDoc) : OrderRecord :=
  let order_status := match doc.order_status with
    | some s => s
    | none => doc.status.getD "pending"
  { id := doc.oid.getD ""
    user_id := doc.user_id
    items := doc.items.map process_helper_item
    order_status := order_status
    payment_status := doc.payment_status.getD "pending"
    subtotal := doc.subtotal.getD 0
    shipping_cost := doc.shipping_cost.getD 0
    tax := doc.tax.getD 0
    total := match doc.total with
      | some t => t
      | none => doc.total_amount.getD 0
    tracking_number := doc.tracking_number
    notes := doc.notes }

/-- The structural-validation failure condition as the spec words it, minus
the quantity check the code does not perform: `user_id` absent or empty,
`items` absent / not a list / empty, or some item lacking one of the three
required keys. -/
def structurally_invalid (d : OrderData) : Prop :=
  d.user_id = none ∨ d.user_id = some "" ∨
  d.items = .absent ∨ d.items = .notList ∨
  (∃ l, d.items = .list l ∧
    (l = [] ∨ ∃ it ∈ l, it.product_id = none ∨ it.size = none ∨ it.quantity = none))

deriving instance DecidableEq for Except

/-- Canonical id used by the worked examples. -/
def exIdA : String := "aaaaaaaaaaaaaaaaaaaaaaaa"

/-- The same id written in uppercase hex: `ObjectId` accepts it and
normalizes it to `exIdA`. -/
def exIdAUpper : String := "AAAAAAAAAAAAAAAAAAAAAAAA"

/-- A well-formed id that matches no catalog record in the examples. -/
def exIdB : String := "bbbbbbbbbbbbbbbbbbbbbbbb"

/-- Catalog record used by the pricing examples: unit price 29.99. -/
def exProduct : ProductDoc :=
  { oid := exIdA
    name := some "Classic Tee"
    price := some (2999/100)
    sizes := [⟨"M", 5⟩] }

/-- One-product catalog for the pricing examples. -/
def exCatalog : List ProductDoc := [exProduct]

/-- A catalog record without monetary fields, for the existence-check
examples. -/
def exPlainProduct : ProductDoc := { oid := exIdA, name := some "Tee" }

/-- One-product catalog for the existence-check examples. -/
def exPlainCatalog : List ProductDoc := [exPlainProduct]

/-- A valid create-order request: user u1 buys two size-M units of
`exIdA`. -/
def exOrderData : OrderData :=
  { user_id := some "u1"
    items := .list [⟨some exIdA, some "M", some 2⟩] }

/-- The document `create_order exCatalog exOrderData` inserts: subtotal and
total are 59.98 (= 2999/50). -/
def exOrderDoc : OrderDoc :=
  { user_id := some "u1"
    items := [{ product_id := exIdA
                size := "M"
                quantity := 2
                product_name := some "Classic Tee"
                price := some (2999/100)
                subtotal := some (2999/50) }]
    order_status := some "pending"
    payment_status := some "pending"
    subtotal := some (2999/50)
    shipping_cost := some 0
    tax := some 0
    total := some (2999/50) }

/-- The same request with a caller-supplied initial status, which creation
must ignore. -/
def exStatusData : OrderData :=
  { user_id := some "u1"
    items := .list [⟨some exIdA, some "M", some 2⟩]
    order_status := some "shipped"
    payment_status := some "paid" }

/-- A request referencing one existing product (`exIdA`) and one absent
product (`exIdB`). -/
def exMissingData : OrderData :=
  { user_id := some "u1"
    items := .list [⟨some exIdA, some "M", some 2⟩, ⟨some exIdB, some "L", some 1⟩] }

/-- `exMissingData` after `validate_order_data`. -/
def exMissingValid : ValidOrderData :=
  { user_id := "u1"
    items := [⟨exIdA, "M", 2⟩, ⟨exIdB, "L", 1⟩]
    shipping_cost := none
    tax := none
    order_status := none
    payment_status := none }

/-- A structurally well-keyed request whose only flaw is `quantity = 0`. -/
def exZeroQtyData : OrderData :=
  { user_id := some "u1"
    items := .list [⟨some exIdA, some "M", some 0⟩] }

/-- `exZeroQtyData` after `validate_order_data`: it passes. -/
def exZeroQtyValid : ValidOrderData :=
  { user_id := "u1"
    items := [⟨exIdA, "M", 0⟩]
    shipping_cost := none
    tax := none
    order_status := none
    payment_status := none }

/-- A stored order (legacy-free) used by the status-update example. -/
def exStoredOrder : OrderDoc :=
  { oid := some exIdA
    user_id := some "u1"
    status := some "pending" }

/-- Product filter combining `in_stock=false` with a search term. -/
def exSearchStockFilter : ProductFilter :=
  { in_stock := some false, search := some "shirt" }

/-- A product that is in stock and whose name matches the search term. -/
def exInStockShirt : ProductDoc :=
  { oid := exIdA
    name := some "Nice Shirt"
    sizes := [⟨"M", 5⟩] }

/-- Validation passes the payload through: the refined data keeps the
caller's shipping_cost and tax (`validated_data` is the same dict). -/
theorem validate_order_data_preserves_charges (d : OrderData) (v : ValidOrderData)
    (hv : validate_order_data d = .ok v) :
    v.shipping_cost = d.shipping_cost ∧ v.tax = d.tax := by
  unfold validate_order_data at hv
  repeat' split at hv
  all_goals simp_all
  all_goals (cases hv; exact ⟨rfl, rfl⟩)

/-- C6: whatever initial statuses the caller supplies, a created order is
persisted with order_status = "pending" and payment_status = "pending". -/
theorem create_order_forces_pending_statuses (catalog : List ProductDoc)
    (d : OrderData) (doc : OrderDoc) (h : create_order catalog d = .ok doc) :
    doc.order_status = some "pending" ∧ doc.payment_status = some "pending" := by
  unfold create_order at h
  cases hv : validate_order_data d with
  | error e => rw [hv] at h; simp at h
  | ok v =>
    rw [hv] at h
    simp only [create_order_validated] at h
    split at h
    · cases h; exact ⟨rfl, rfl⟩
    · simp at h

/-- C6 witness: the worked request carries order_status = "shipped" and
payment_status = "paid", yet the created order is pending/pending. -/
theorem create_order_forces_pending_statuses_witness :
    exOrderDoc.order_status = some "pending" ∧
    exOrderDoc.payment_status = some "pending" :=
  create_order_forces_pending_statuses exCatalog exStatusData exOrderDoc (by
    norm_num +decide [create_order, validate_order_data, create_order_validated,
      check_products_exist, parseObjectId, isValidObjectIdStr, strToLower,
      enrich_item, round2, roundHalfEven, joinComma, item_has_required_keys,
      refineItem, oidToStr, exStatusData, exProduct, exCatalog, exOrderDoc, exIdA])

/-- C5: updating an order's status to a string outside the five-value
whitelist makes the body raise HTTP 400, but the enclosing blanket exception
handler replaces it with HTTP 500 "Internal server error"; the store is
untouched either way. -/
theorem update_order_status_invalid_becomes_500 :
    update_order_status_inner [exStoredOrder] exIdA "not-a-status" =
      .error ⟨400, "Invalid status. Must be one of: pending, processing, shipped, delivered, cancelled"⟩ ∧
    update_order_status [exStoredOrder] exIdA "not-a-status" =
      .error ⟨500, "Internal server error"⟩ := by
  constructor
  · decide
  · decide

/-- C4 counterexample: the PaginationMeta.create of schemas/pagination.py
reports total_pages = 1, not 0, when total_items = 0. -/
theorem paginationMeta_create_zero_items_not_zero :
    (paginationMeta_create 1 10 0).total_pages = 1 ∧
    ¬(paginationMeta_create 1 10 0).total_pages = 0 := by decide

/-- C4 (amended): with total_items = 0 no implementation divides by zero;
all three give has_next = false and has_previous = (page > 1); the utils
Paginator and the common_v2 builder give total_pages = 0, while the
schemas/pagination builder gives total_pages = 1. -/
theorem build_meta_zero_items_behavior (page page_size : Nat)
    (hp : 1 ≤ page) (hps1 : 1 ≤ page_size) (hps2 : page_size ≤ 100) :
    (paginationMeta_create page page_size 0).total_pages = 1 ∧
    (paginationMeta_create page page_size 0).has_next = false ∧
    (paginationMeta_create page page_size 0).has_previous = decide (1 < page) ∧
    (get_pagination_metadata page page_size 0).total_pages = 0 ∧
    (get_pagination_metadata page page_size 0).has_next = false ∧
    (get_pagination_metadata page page_size 0).has_previous = decide (1 < page) ∧
    (paginationMetaV2_create page page_size 0).total_pages = 0 ∧
    (paginationMetaV2_create page page_size 0).has_next = false ∧
    (paginationMetaV2_create page page_size 0).has_previous = decide (1 < page) := by
  have hmax : max 1 page = page := Nat.max_eq_right hp
  have hlt : ¬(page < 1) := by omega
  simp [paginationMeta_create, get_pagination_metadata, paginationMetaV2_create,
    hmax, hlt]

/-- C4 witness: instantiation at page 2, page_size 10. -/
theorem build_meta_zero_items_behavior_witness :
    (paginationMeta_create 2 10 0).total_pages = 1 ∧
    (paginationMeta_create 2 10 0).has_next = false ∧
    (paginationMeta_create 2 10 0).has_previous = decide (1 < 2) ∧
    (get_pagination_metadata 2 10 0).total_pages = 0 ∧
    (get_pagination_metadata 2 10 0).has_next = false ∧
    (get_pagination_metadata 2 10 0).has_previous = decide (1 < 2) ∧
    (paginationMetaV2_create 2 10 0).total_pages = 0 ∧
    (paginationMetaV2_create 2 10 0).has_next = false ∧
    (paginationMetaV2_create 2 10 0).has_previous = decide (1 < 2) :=
  build_meta_zero_items_behavior 2 10 (by decide) (by decide) (by decide)

/-- C3: the filters of list_orders query the legacy field names `status` and
`total_amount`, but create_order persists `order_status` and `total`; so an
order freshly created by the pipeline is matched neither by its own status
value nor by a total range that contains its total. -/
theorem list_orders_filter_misses_pipeline_orders :
    create_order exCatalog exOrderData = .ok exOrderDoc ∧
    exOrderDoc.order_status = some "pending" ∧
    exOrderDoc.total = some (2999/50) ∧
    list_orders_matches { order_status := some "pending" } exOrderDoc = false ∧
    list_orders_matches { min_total := some 0, max_total := some 100 } exOrderDoc = false := by
  refine ⟨?_, rfl, rfl, ?_, ?_⟩
  · norm_num +decide [create_order, validate_order_data, create_order_validated,
      check_products_exist, parseObjectId, isValidObjectIdStr, strToLower,
      enrich_item, round2, roundHalfEven, joinComma, item_has_required_keys,
      refineItem, oidToStr, exOrderData, exProduct, exCatalog, exOrderDoc, exIdA]
  · decide
  · decide

/-- C10: the record built by order_helper always carries a status and a
total: order_status falls back from the document's order_status to the
legacy status field and then to "pending"; payment_status defaults to
"pending"; total falls back from total to the legacy total_amount field and
then to 0. -/
theorem order_helper_field_defaults (doc : OrderDoc) :
    (∀ s, doc.order_status = some s → (order_helper doc).order_status = s) ∧
    (doc.order_status = none → ∀ s, doc.status = some s → (order_helper doc).order_status = s) ∧
    (doc.order_status = none → doc.status = none → (order_helper doc).order_status = "pending") ∧
    (∀ s, doc.payment_status = some s → (order_helper doc).payment_status = s) ∧
    (doc.payment_status = none → (order_helper doc).payment_status = "pending") ∧
    (∀ t, doc.total = some t → (order_helper doc).total = t) ∧
    (doc.total = none → ∀ t, doc.total_amount = some t → (order_helper doc).total = t) ∧
    (doc.total = none → doc.total_amount = none → (order_helper doc).total = 0) := by
  refine ⟨?_, ?_, ?_, ?_, ?_, ?_, ?_, ?_⟩ <;> intros <;> simp_all [order_helper]

/-- C10 witness: a legacy document keeps its status and total_amount; an
empty document gets the pending/pending/0 defaults. -/
theorem order_helper_field_defaults_witness :
    (order_helper { status := some "shipped", total_amount := some 42 }).order_status = "shipped" ∧
    (order_helper { status := some "shipped", total_amount := some 42 }).total = 42 ∧
    (order_helper {}).order_status = "pending" ∧
    (order_helper {}).payment_status = "pending" ∧
    (order_helper {}).total = 0 :=
  ⟨(order_helper_field_defaults _).2.1 rfl "shipped" rfl,
   (order_helper_field_defaults _).2.2.2.2.2.2.1 rfl 42 rfl,
   (order_helper_field_defaults _).2.2.1 rfl rfl,
   (order_helper_field_defaults _).2.2.2.2.1 rfl,
   (order_helper_field_defaults _).2.2.2.2.2.2.2 rfl rfl⟩

/-- C7 counterexample: an item with quantity 0 passes structural validation
unchanged and the call proceeds to product resolution (here failing 404 on
the empty catalog, not 400). -/
theorem validate_accepts_zero_quantity :
    validate_order_data exZeroQtyData = .ok exZeroQtyValid ∧
    create_order [] exZeroQtyData =
      .error ⟨404, "Products not found: " ++ exIdA⟩ := by
  constructor
  · decide
  · decide

/-- C8 counterexample: with in_stock=false and search="shirt" supplied
together, an in-stock product whose name matches the search term satisfies
the built query, though the advertised conjunctive semantics excludes it. -/
theorem search_overwrites_out_of_stock_filter :
    product_query_matches (build_product_query exSearchStockFilter) exInStockShirt = true ∧
    spec_product_filter_matches exSearchStockFilter exInStockShirt = false := by decide

/-- C9 counterexample: requesting an existing product by the uppercase form
of its id returns its record among found_products and simultaneously reports
the requested id as missing. -/
theorem check_products_exist_case_mismatch :
    (check_products_exist exPlainCatalog [exIdAUpper]).1 = [exPlainProduct] ∧
    (check_products_exist exPlainCatalog [exIdAUpper]).2 = [exIdAUpper] ∧
    parseObjectId exIdAUpper = some exPlainProduct.oid := by decide

/-- Folding `+` over mapped values equals the sum of the mapped list. -/
theorem foldl_add_eq_sum {α : Type} (f : α → Rat) (l : List α) (a : Rat) :
    l.foldl (fun acc x => acc + f x) a = a + (l.map f).sum := by
  induction l generalizing a with
  | nil => simp
  | cons x xs ih => simp [ih, add_assoc]

/-- If the missing-id list is empty, every requested id is (literally) the
canonical string of some found record, so the lookup map hits. -/
theorem contains_of_missing_empty (catalog : List ProductDoc) (ids : List String)
    (hm : (check_products_exist catalog ids).2.isEmpty = true)
    (pid : String) (hpid : pid ∈ ids) :
    ∃ p, p ∈ (check_products_exist catalog ids).1 ∧ oidToStr p.oid = pid := by
  unfold check_products_exist at *
  simp only [List.isEmpty_iff, List.filter_eq_nil_iff] at hm
  have hc := hm pid hpid
  simp only [Bool.not_eq_true', Bool.not_eq_false] at hc
  have hmem : pid ∈ (List.filter
      (fun p => (ids.filterMap parseObjectId).contains p.oid) catalog).map
      (fun p => oidToStr p.oid) := by
    simpa [List.contains, List.elem_iff] using hc
  obtain ⟨p, hp, hpq⟩ := List.mem_map.mp hmem
  exact ⟨p, hp, hpq⟩

/-- C1: a successfully created order snapshots each item's unit price from
the catalog, computes each item subtotal as round(price*quantity, 2), sums
them into subtotal, and sets total = round(subtotal + shipping_cost + tax, 2)
with shipping_cost and tax defaulting to 0 when the caller omits them. -/
theorem create_order_pricing_invariants (catalog : List ProductDoc)
    (d : OrderData) (doc : OrderDoc) (h : create_order catalog d = .ok doc) :
    doc.shipping_cost = some (d.shipping_cost.getD 0) ∧
    doc.tax = some (d.tax.getD 0) ∧
    doc.total = some (round2 (doc.subtotal.getD 0 + d.shipping_cost.getD 0 + d.tax.getD 0)) ∧
    doc.subtotal = some ((doc.items.map (fun it => it.subtotal.getD 0)).sum) ∧
    ∀ it ∈ doc.items, ∃ p, p ∈ catalog ∧ oidToStr p.oid = it.product_id ∧
      it.price = some (p.price.getD 0) ∧
      it.subtotal = some (round2 (p.price.getD 0 * (it.quantity : Rat))) := by
  unfold create_order at h
  cases hv : validate_order_data d with
  | error e => rw [hv] at h; simp at h
  | ok v =>
    rw [hv] at h
    obtain ⟨hsc, htax⟩ := validate_order_data_preserves_charges d v hv
    simp only [create_order_validated] at h
    by_cases hm : (check_products_exist catalog (v.items.map fun it => it.product_id)).2.isEmpty = true
    · rw [if_pos hm] at h
      injection h with h2
      subst h2
      refine ⟨by simp [hsc], by simp [htax], by simp [hsc, htax], ?_, ?_⟩
      · simp [foldl_add_eq_sum]
      · intro it hit
        obtain ⟨it0, hit0, rfl⟩ := List.mem_map.mp hit
        have hpid : it0.product_id ∈ v.items.map (fun it => it.product_id) :=
          List.mem_map.mpr ⟨it0, hit0, rfl⟩
        obtain ⟨p, hpfound, hpq⟩ := contains_of_missing_empty catalog _ hm _ hpid
        have hfind : ∃ p1, (check_products_exist catalog
            (v.items.map (fun it => it.product_id))).1.find?
            (fun p => oidToStr p.oid == it0.product_id) = some p1 := by
          have : ∃ x, x ∈ (check_products_exist catalog
              (v.items.map (fun it => it.product_id))).1 ∧
              (oidToStr x.oid == it0.product_id) = true := ⟨p, hpfound, by simp [hpq]⟩
          obtain ⟨p1, hp1⟩ := Option.isSome_iff_exists.mp (List.find?_isSome.mpr this)
          exact ⟨p1, hp1⟩
        obtain ⟨p1, hfind1⟩ := hfind
        have hp1mem : p1 ∈ (check_products_exist catalog
            (v.items.map (fun it => it.product_id))).1 :=
          List.mem_of_find?_eq_some hfind1
        have hp1cat : p1 ∈ catalog := by
          unfold check_products_exist at hp1mem
          exact (List.mem_filter.mp hp1mem).1
        have hp1eq : oidToStr p1.oid = it0.product_id := by
          simpa using List.find?_some hfind1
        refine ⟨p1, hp1cat, ?_, ?_, ?_⟩ <;>
          simp [enrich_item, hfind1, hp1eq]
    · rw [if_neg hm] at h
      simp at h

/-- C1 witness: the worked pricing example (one item, price 29.99,
quantity 2) satisfies every conjunct. -/
theorem create_order_pricing_invariants_witness :
    exOrderDoc.shipping_cost = some (exOrderData.shipping_cost.getD 0) ∧
    exOrderDoc.tax = some (exOrderData.tax.getD 0) ∧
    exOrderDoc.total = some (round2 (exOrderDoc.subtotal.getD 0 +
      exOrderData.shipping_cost.getD 0 + exOrderData.tax.getD 0)) ∧
    exOrderDoc.subtotal = some ((exOrderDoc.items.map (fun it => it.subtotal.getD 0)).sum) ∧
    ∀ it ∈ exOrderDoc.items, ∃ p, p ∈ exCatalog ∧ oidToStr p.oid = it.product_id ∧
      it.price = some (p.price.getD 0) ∧
      it.subtotal = some (round2 (p.price.getD 0 * (it.quantity : Rat))) :=
  create_order_pricing_invariants exCatalog exOrderData exOrderDoc (by
    norm_num +decide [create_order, validate_order_data, create_order_validated,
      check_products_exist, parseObjectId, isValidObjectIdStr, strToLower,
      enrich_item, round2, roundHalfEven, joinComma, item_has_required_keys,
      refineItem, oidToStr, exOrderData, exProduct, exCatalog, exOrderDoc, exIdA])

/-- A requested id matched by no catalog record (under ObjectId parsing) is
reported in missing_ids, provided stored ids are canonical. -/
theorem absent_id_mem_missing (catalog : List ProductDoc) (ids : List String)
    (hcat : ∀ p ∈ catalog, isCanonicalOid p.oid = true)
    (q : String) (hq : q ∈ ids)
    (habs : ∀ p ∈ catalog, parseObjectId q ≠ some p.oid) :
    q ∈ (check_products_exist catalog ids).2 := by
  unfold check_products_exist
  apply List.mem_filter.mpr
  refine ⟨hq, ?_⟩
  simp only [Bool.not_eq_eq_eq_not, Bool.not_true]
  by_contra hc
  rw [Bool.not_eq_false] at hc
  have hmem : q ∈ (List.filter
      (fun p => (ids.filterMap parseObjectId).contains p.oid) catalog).map
      (fun p => oidToStr p.oid) := by
    simpa [List.contains, List.elem_iff] using hc
  obtain ⟨p, hpfilter, hpq⟩ := List.mem_map.mp hmem
  have hpcat : p ∈ catalog := (List.mem_filter.mp hpfilter).1
  have hcan := hcat p hpcat
  apply habs p hpcat
  unfold isCanonicalOid at hcan
  rw [Bool.and_eq_true] at hcan
  obtain ⟨hval, hlow⟩ := hcan
  unfold oidToStr at hpq
  subst hpq
  unfold parseObjectId
  rw [if_pos hval]
  simpa using hlow

/-- C2: a create-order request referencing any product id that no catalog
record matches fails with HTTP 404 whose message is built from the full
missing-id list (every absent requested id is in that list, not only the
first), and the orders store is left unchanged. -/
theorem create_order_missing_refs_fail_wholesale (catalog : List ProductDoc)
    (store : List OrderDoc) (d : OrderData) (v : ValidOrderData)
    (hcat : ∀ p ∈ catalog, isCanonicalOid p.oid = true)
    (hv : validate_order_data d = .ok v)
    (pid : String) (hpid : pid ∈ v.items.map (fun it => it.product_id))
    (habsent : ∀ p ∈ catalog, parseObjectId pid ≠ some p.oid) :
    create_order catalog d = .error ⟨404, "Products not found: " ++
      joinComma (check_products_exist catalog (v.items.map (fun it => it.product_id))).2⟩ ∧
    (∀ q ∈ v.items.map (fun it => it.product_id),
      (∀ p ∈ catalog, parseObjectId q ≠ some p.oid) →
      q ∈ (check_products_exist catalog (v.items.map (fun it => it.product_id))).2) ∧
    create_order_store catalog store d = store := by
  have hmemmiss : pid ∈ (check_products_exist catalog
      (v.items.map (fun it => it.product_id))).2 :=
    absent_id_mem_missing catalog _ hcat pid hpid habsent
  have hne : ¬(check_products_exist catalog
      (v.items.map (fun it => it.product_id))).2.isEmpty = true := by
    rw [List.isEmpty_iff]
    intro hnil
    rw [hnil] at hmemmiss
    exact List.not_mem_nil pid hmemmiss
  have hco : create_order catalog d = .error ⟨404, "Products not found: " ++
      joinComma (check_products_exist catalog (v.items.map (fun it => it.product_id))).2⟩ := by
    unfold create_order
    rw [hv]
    simp only [create_order_validated]
    rw [if_neg hne]
  refine ⟨hco, ?_, ?_⟩
  · intro q hq habsq
    exact absent_id_mem_missing catalog _ hcat q hq habsq
  · unfold create_order_store
    rw [hco]

/-- C2 witness: a two-item request where the second product id (exIdB) is
absent from the one-product catalog. -/
theorem create_order_missing_refs_fail_wholesale_witness :
    create_order exCatalog exMissingData = .error ⟨404, "Products not found: " ++
      joinComma (check_products_exist exCatalog
        (exMissingValid.items.map (fun it => it.product_id))).2⟩ ∧
    (∀ q ∈ exMissingValid.items.map (fun it => it.product_id),
      (∀ p ∈ exCatalog, parseObjectId q ≠ some p.oid) →
      q ∈ (check_products_exist exCatalog
        (exMissingValid.items.map (fun it => it.product_id))).2) ∧
    create_order_store exCatalog [] exMissingData = [] :=
  create_order_missing_refs_fail_wholesale exCatalog [] exMissingData exMissingValid
    (by decide) (by decide) exIdB (by decide) (by decide)

/-- The two redundant arms of the out-of-stock `$or` (empty sizes array, or
no entry with positive stock) collapse to the second. -/
theorem sizes_isEmpty_or_not_any (l : List SizeEntry) :
    (l.isEmpty || !(l.any (fun e => 0 < e.stock))) = !(l.any (fun e => 0 < e.stock)) := by
  cases l <;> simp

/-- A string known to be non-empty compares `== ""` to false. -/
theorem beq_empty_false {s : String} (h : ¬s = "") : (s == "") = false :=
  beq_false_of_ne h

set_option maxHeartbeats 2000000

/-- C8 (amended): the built product query denotes the conjunction of the
supplied filters, except that a supplied non-empty search term overwrites
the `in_stock=false` condition in the shared `"$or"` slot. -/
theorem product_query_follows_amended_spec (f : ProductFilter) (p : ProductDoc) :
    product_query_matches (build_product_query f) p =
    spec_product_filter_matches_amended f p := by
  obtain ⟨cat, brand, mn, mx, sz, stk, se⟩ := f
  rcases stk with _ | ⟨_ | _⟩ <;> rcases se with _ | s <;> cases cat <;> cases brand <;> cases sz <;>
    simp only [product_query_matches, build_product_query, spec_product_filter_matches_amended,
      search_supplied, or_condition_matches] <;>
    (try split_ifs) <;>
    simp_all [or_condition_matches, sizes_isEmpty_or_not_any, beq_empty_false]

set_option maxHeartbeats 200000

/-- The all-items key check of the validator, spelled out per item. -/
theorem all_keys_iff (l : List OrderItemData) :
    l.all item_has_required_keys = true ↔
    ∀ it ∈ l, it.product_id ≠ none ∧ it.size ≠ none ∧ it.quantity ≠ none := by
  rw [List.all_eq_true]
  constructor
  · intro h it hit
    have := h it hit
    simp only [item_has_required_keys, Bool.and_eq_true, Option.isSome_iff_ne_none] at this
    tauto
  · intro h it hit
    have := h it hit
    simp only [item_has_required_keys, Bool.and_eq_true, Option.isSome_iff_ne_none]
    tauto

/-- C7 (amended): create_order fails with a 400 error, inserting nothing,
exactly when the request is structurally invalid (missing/empty user_id,
missing/non-list/empty items, or an item lacking product_id, size or
quantity); quantity <= 0 is NOT part of this check, and every structurally
valid request proceeds to product resolution. -/
theorem create_order_structural_validation (catalog : List ProductDoc)
    (store : List OrderDoc) (d : OrderData) :
    ((∃ e, validate_order_data d = .error e ∧ e.status_code = 400 ∧
      create_order catalog d = .error e) ↔ structurally_invalid d) ∧
    (∀ v, validate_order_data d = .ok v →
      create_order catalog d = create_order_validated catalog v) ∧
    (structurally_invalid d → create_order_store catalog store d = store) := by
  have key : (∃ e, validate_order_data d = .error e ∧ e.status_code = 400) ↔
      structurally_invalid d := by
    obtain ⟨uid, itf, sc, tax, os, ps⟩ := d
    cases uid with
    | none => simp [validate_order_data, structurally_invalid]
    | some u =>
      by_cases hu : u = ""
      · subst hu
        simp [validate_order_data, structurally_invalid]
      · cases itf with
        | absent => simp [validate_order_data, structurally_invalid, hu]
        | notList => simp [validate_order_data, structurally_invalid, hu]
        | list l =>
          by_cases hl : l.isEmpty = true
          · rw [List.isEmpty_iff] at hl
            subst hl
            simp [validate_order_data, structurally_invalid, hu]
          · by_cases hall : l.all item_has_required_keys = true
            · have hforall := (all_keys_iff l).mp hall
              apply iff_of_false
              · simp [validate_order_data, hu, hl, hall]
              · rintro (h | h | h | h | ⟨l2, hl2, hrest⟩)
                · exact Option.noConfusion h
                · injection h with h
                  exact hu h
                · exact ItemsField.noConfusion h
                · exact ItemsField.noConfusion h
                · injection hl2 with hl2
                  subst hl2
                  cases hrest with
                  | inl h0 =>
                    rw [h0] at hl
                    simp at hl
                  | inr hex =>
                    obtain ⟨it, hit, hbad⟩ := hex
                    have := hforall it hit
                    tauto
            · apply iff_of_true
              · refine ⟨⟨400, "Each item must have product_id, quantity, and size"⟩, ?_, rfl⟩
                simp [validate_order_data, hu, hl, hall]
              · have hbad : ∃ it ∈ l, it.product_id = none ∨ it.size = none ∨ it.quantity = none := by
                  have hnot : ¬∀ it ∈ l,
                      it.product_id ≠ none ∧ it.size ≠ none ∧ it.quantity ≠ none := by
                    intro hcon
                    exact hall ((all_keys_iff l).mpr hcon)
                  push_neg at hnot
                  obtain ⟨it, hit, hcon⟩ := hnot
                  refine ⟨it, hit, ?_⟩
                  by_cases h1 : it.product_id = none
                  · exact Or.inl h1
                  · by_cases h2 : it.size = none
                    · exact Or.inr (Or.inl h2)
                    · by_cases h3 : it.quantity = none
                      · exact Or.inr (Or.inr h3)
                      · exact absurd h3 (by tauto)
                exact Or.inr (Or.inr (Or.inr (Or.inr ⟨l, rfl, Or.inr hbad⟩)))
  refine ⟨?_, ?_, ?_⟩
  · constructor
    · rintro ⟨e, he, h4, _⟩
      exact key.mp ⟨e, he, h4⟩
    · intro hsi
      obtain ⟨e, he, h4⟩ := key.mpr hsi
      refine ⟨e, he, h4, ?_⟩
      unfold create_order
      rw [he]
  · intro v hv
    unfold create_order
    rw [hv]
  · intro hsi
    obtain ⟨e, he, h4⟩ := key.mpr hsi
    have hco : create_order catalog d = .error e := by
      unfold create_order
      rw [he]
    unfold create_order_store
    rw [hco]

/-- C7 witness: a request with no user_id is structurally invalid, and a
create attempt with it leaves the store unchanged. -/
theorem create_order_structural_validation_witness :
    create_order_store exCatalog [] { user_id := none } = [] :=
  (create_order_structural_validation exCatalog [] { user_id := none }).2.2 (Or.inl rfl)

/-- C9 (amended): check_products_exist never raises; found_products are
exactly the catalog records whose id some syntactically valid requested id
parses to; missing_ids are exactly the requested ids not literally equal to
the canonical string of any found record's id.  Every requested id with no
matching record is among missing_ids, but a non-canonical (e.g. uppercase)
spelling of an existing record's id lands in missing_ids as well, even
though its record is returned among found_products. -/
theorem check_products_exist_characterization (catalog : List ProductDoc)
    (ids : List String) (hcat : ∀ p ∈ catalog, isCanonicalOid p.oid = true) :
    (∀ p, p ∈ (check_products_exist catalog ids).1 ↔
      p ∈ catalog ∧ ∃ pid ∈ ids, parseObjectId pid = some p.oid) ∧
    (∀ pid, pid ∈ (check_products_exist catalog ids).2 ↔
      pid ∈ ids ∧ ∀ p ∈ (check_products_exist catalog ids).1, oidToStr p.oid ≠ pid) ∧
    (∀ pid ∈ ids, (∀ p ∈ catalog, parseObjectId pid ≠ some p.oid) →
      pid ∈ (check_products_exist catalog ids).2) := by
  refine ⟨?_, ?_, ?_⟩
  · intro p
    unfold check_products_exist
    simp [List.mem_filter, List.contains, List.elem_iff]
  · intro pid
    unfold check_products_exist
    simp [List.mem_filter, List.contains, List.elem_iff]
  · intro pid hpid habs
    exact absent_id_mem_missing catalog ids hcat pid hpid habs

/-- C9 witness: a syntactically invalid id is reported missing (no error is
raised) on the example catalog. -/
theorem check_products_exist_characterization_witness :
    "not-a-valid-id" ∈ (check_products_exist exPlainCatalog ["not-a-valid-id"]).2 :=
  (check_products_exist_characterization exPlainCatalog ["not-a-valid-id"]
    (by decide)).2.2 "not-a-valid-id" (by decide) (by decide)
